import Mathlib

/-!
Shallow embedding of `src/utils/db.js` from the webpage-clipper-indexeddb
repository: a thin IndexedDB storage adapter exposing
`initDB` / `addClippedPage` / `getAllClippedPages` / `deleteClippedPage` /
`clearAllClippedPages` over a single `clippedPages` object store.

JavaScript values that flow through the adapter are modelled by `JSValue`
(with JS numbers as `JSNum`, distinguishing NaN and the infinities from
finite numbers).  A page-data object is an association list of properties
(`JSObject`); property access on a missing key yields `undefined`, exactly
as in JS.  The module-level `db` handle and the contents of the object
store form the adapter state `DBState`; each CRUD function is a state
transformer returning `Except DBError _`, mirroring the thrown
`Error('Database not initialized')` and re-raised engine errors.
-/

/-- JS numbers, as they matter to `Number.isFinite` and truthiness:
NaN, the two infinities, or a finite number (modelled as a rational). -/
inductive JSNum where
  | nan : JSNum
  | posInf : JSNum
  | negInf : JSNum
  | finite : ℚ → JSNum
deriving DecidableEq, Repr

/-- JS values that can appear as page-data fields. -/
inductive JSValue where
  | undefined : JSValue
  | null : JSValue
  | boolean : Bool → JSValue
  | number : JSNum → JSValue
  | string : String → JSValue
deriving DecidableEq, Repr

/-- JS truthiness: `undefined`, `null`, `false`, `NaN`, `0` and `""` are
falsy; everything else is truthy.  This is what `x || default` tests. -/
def JSValue.truthy : JSValue → Bool
  | .undefined => false
  | .null => false
  | .boolean b => b
  | .number .nan => false
  | .number (.finite q) => decide (q ≠ 0)
  | .number _ => true
  | .string s => decide (s ≠ "")

/-- `Number.isFinite(v)`: true exactly when `v` is a number that is
neither NaN nor ±Infinity. -/
def JSValue.isFiniteNumber : JSValue → Bool
  | .number (.finite _) => true
  | _ => false

/-- A JS object as an association list of properties (first binding of a
key wins, as `find?` takes the first match). -/
abbrev JSObject := List (String × JSValue)

/-- Property access `obj.k`: the value bound to `k`, or `undefined` when
the key is absent. -/
def getProp (obj : JSObject) (k : String) : JSValue :=
  match obj.find? (fun kv => kv.1 = k) with
  | some kv => kv.2
  | none => .undefined

/-- The normalization performed by `addClippedPage` (`const data = {...}`):
each text field is `pageData.f || default`, `timestamp` defaults to the
current time (passed in as `now` since `new Date().toISOString()` is
ambient), and the numeric fields are kept only when
`Number.isFinite(pageData.f)` holds, else replaced by 0 resp. 1.  The
result is the literal object in source order. -/
def normalizeData (pageData : JSObject) (now : String) : JSObject :=
  [ ("title", if (getProp pageData "title").truthy then getProp pageData "title"
      else .string "Untitled"),
    ("url", if (getProp pageData "url").truthy then getProp pageData "url"
      else .string ""),
    ("content", if (getProp pageData "content").truthy then getProp pageData "content"
      else .string ""),
    ("timestamp", if (getProp pageData "timestamp").truthy then getProp pageData "timestamp"
      else .string now),
    ("favicon", if (getProp pageData "favicon").truthy then getProp pageData "favicon"
      else .string ""),
    ("wordCount", if (getProp pageData "wordCount").isFiniteNumber then getProp pageData "wordCount"
      else .number (.finite 0)),
    ("readingTime", if (getProp pageData "readingTime").isFiniteNumber then getProp pageData "readingTime"
      else .number (.finite 1)) ]

/-- A record as persisted in the `clippedPages` store: the normalized data
object together with the auto-assigned primary key `id` (injected by the
engine at keyPath `'id'`). -/
structure Record where
  id : Nat
  fields : JSObject
deriving DecidableEq, Repr

/-- Adapter state: whether the module-level `db` handle is set (non-null),
the contents of the `clippedPages` store, and the store's autoIncrement
counter (IndexedDB key generators start at 1). -/
structure DBState where
  dbConn : Bool
  records : List Record
  nextId : Nat
deriving DecidableEq, Repr

/-- The state of a freshly created database: no connection yet, empty
store, key generator at 1. -/
def DBState.fresh : DBState := ⟨false, [], 1⟩

/-- Errors surfaced by the adapter: the `Error('Database not initialized')`
guard, or an engine error re-raised by a `catch`/`throw` block. -/
inductive DBError where
  | notInitialized : DBError
  | engine : String → DBError
deriving DecidableEq, Repr

/-- `initDB()`: awaits the engine's open request.  On success the resolved
handle is stored in the module-level `db`; on an open error the rejection
is logged and re-thrown, and the `db` assignment never executes, so the
connection stays as it was. -/
def initDB (engineOpen : Except String Unit) (s : DBState) :
    Except DBError Unit × DBState :=
  match engineOpen with
  | .ok _ => (.ok (), { s with dbConn := true })
  | .error e => (.error (.engine e), s)

/-- The schema of an object store as created by the upgrade handler:
keyPath, autoIncrement flag, and the indexes as (name, unique) pairs. -/
structure StoreSchema where
  keyPath : String
  autoIncrement : Bool
  indexes : List (String × Bool)
deriving DecidableEq, Repr

/-- The `request.onupgradeneeded` handler: given the stored `oldVersion`
and the current schema (none on first-ever open), creates the
`clippedPages` store with keyPath `'id'`, autoIncrement, and non-unique
indexes on `url` and `timestamp` when `oldVersion < 1`; the
`oldVersion < 2` branch only logs and alters no structure. -/
def onUpgradeNeeded (oldVersion : Nat) (schema : Option StoreSchema) :
    Option StoreSchema :=
  let schema1 :=
    if oldVersion < 1 then
      some ⟨"id", true, [("url", false), ("timestamp", false)]⟩
    else schema
  -- oldVersion < 2: "No structural changes needed; just logging upgrade"
  schema1

/-- `addClippedPage(pageData)`: throws `Error('Database not initialized')`
when `db` is null; otherwise normalizes the input, inserts the record in a
single readwrite transaction, and returns the engine-assigned id. -/
def addClippedPage (pageData : JSObject) (now : String) (s : DBState) :
    Except DBError Nat × DBState :=
  if !s.dbConn then (.error .notInitialized, s)
  else
    let data := normalizeData pageData now
    (.ok s.nextId,
      { s with records := s.records ++ [⟨s.nextId, data⟩],
               nextId := s.nextId + 1 })

/-- `getAllClippedPages()`: throws when `db` is null; otherwise returns
every record of the store via `store.getAll()`. -/
def getAllClippedPages (s : DBState) :
    Except DBError (List Record) × DBState :=
  if !s.dbConn then (.error .notInitialized, s)
  else (.ok s.records, s)

/-- `deleteClippedPage(id)`: throws when `db` is null; otherwise
`store.delete(id)` removes the record with that primary key (a no-op when
no such record exists — IndexedDB delete succeeds regardless). -/
def deleteClippedPage (id : Nat) (s : DBState) :
    Except DBError Unit × DBState :=
  if !s.dbConn then (.error .notInitialized, s)
  else (.ok (), { s with records := s.records.filter (fun r => r.id ≠ id) })

/-- `clearAllClippedPages()`: throws when `db` is null; otherwise
`store.clear()` empties the store. -/
def clearAllClippedPages (s : DBState) :
    Except DBError Unit × DBState :=
  if !s.dbConn then (.error .notInitialized, s)
  else (.ok (), { s with records := [] })

/-- The key-generator invariant of an IndexedDB autoIncrement store: every
stored primary key is below the counter, so the next assigned id is fresh. -/
def DBState.WF (s : DBState) : Prop :=
  ∀ r ∈ s.records, r.id < s.nextId

instance (s : DBState) : Decidable s.WF := by
  unfold DBState.WF; infer_instance

/-- The seven property names of a normalized page record, in the source
order of the `const data = {...}` literal. -/
def recordFieldNames : List String :=
  ["title", "url", "content", "timestamp", "favicon", "wordCount", "readingTime"]

/-- Spec-side predicate (from the §3 table's words, not the source): a JS
value of the declared type "integer ≥ 0" — a finite number that is a
nonnegative integer.  Used only to compare the spec's typing claim with
what `normalizeData` actually stores. -/
def specNonnegInt : JSValue → Bool
  | .number (.finite q) => decide (0 ≤ q) && decide (q.den = 1)
  | _ => false

/-- Shared helper: on an initialized state, `addClippedPage` returns the
current counter value and appends exactly one record holding the
normalized data under that id. -/
theorem addClippedPage_ok (p : JSObject) (now : String) (s : DBState)
    (hc : s.dbConn = true) :
    addClippedPage p now s =
      (.ok s.nextId,
       ⟨true, s.records ++ [⟨s.nextId, normalizeData p now⟩], s.nextId + 1⟩) := by
  simp [addClippedPage, hc]

/-- C1: after a successful `initialize`, a successful `add p` returns the
counter value `k`; `listAll` on the resulting state yields the previous
records plus a record whose fields are the normalization of `p` with id
`k`; under the key-generator invariant `k` was not assigned to any earlier
record; the invariant is preserved; and a subsequent `add` returns the
strictly larger id `k + 1`. -/
theorem add_then_listAll_spec (s : DBState) (hc : s.dbConn = true)
    (hwf : s.WF) (p p2 : JSObject) (now now2 : String) :
    (addClippedPage p now s).1 = .ok s.nextId ∧
    (getAllClippedPages (addClippedPage p now s).2).1 =
      .ok (s.records ++ [⟨s.nextId, normalizeData p now⟩]) ∧
    (∀ r ∈ s.records, r.id ≠ s.nextId) ∧
    ((addClippedPage p now s).2).WF ∧
    (addClippedPage p2 now2 (addClippedPage p now s).2).1 =
      .ok (s.nextId + 1) ∧
    s.nextId < s.nextId + 1 := by
  rw [addClippedPage_ok p now s hc]
  refine ⟨rfl, by simp [getAllClippedPages], ?_, ?_, ?_, Nat.lt_succ_self _⟩
  · intro r hr
    exact Nat.ne_of_lt (hwf r hr)
  · intro r hr
    simp only [List.mem_append, List.mem_singleton] at hr
    rcases hr with hr | hr
    · exact Nat.lt_succ_of_lt (hwf r hr)
    · rw [hr]; exact Nat.lt_succ_self _
  · rw [addClippedPage_ok p2 now2 _ rfl]

/-- C1 witness: the theorem applied to a concrete initialized one-record
state. -/
theorem add_then_listAll_spec_witness :
    (DBState.mk true [⟨1, normalizeData [] "t0"⟩] 2).dbConn = true ∧
    (DBState.mk true [⟨1, normalizeData [] "t0"⟩] 2).WF ∧
    ((addClippedPage [("title", .string "A")] "t1"
        (DBState.mk true [⟨1, normalizeData [] "t0"⟩] 2)).1 = .ok 2 ∧
      (getAllClippedPages (addClippedPage [("title", .string "A")] "t1"
          (DBState.mk true [⟨1, normalizeData [] "t0"⟩] 2)).2).1 =
        .ok ([⟨1, normalizeData [] "t0"⟩] ++
          [⟨2, normalizeData [("title", .string "A")] "t1"⟩]) ∧
      (∀ r ∈ (DBState.mk true [⟨1, normalizeData [] "t0"⟩] 2).records,
        r.id ≠ 2) ∧
      ((addClippedPage [("title", .string "A")] "t1"
        (DBState.mk true [⟨1, normalizeData [] "t0"⟩] 2)).2).WF ∧
      (addClippedPage [] "t2" (addClippedPage [("title", .string "A")] "t1"
        (DBState.mk true [⟨1, normalizeData [] "t0"⟩] 2)).2).1 = .ok 3 ∧
      (2 : Nat) < 3) :=
  ⟨rfl, by decide,
    add_then_listAll_spec _ rfl (by decide) [("title", .string "A")] [] "t1" "t2"⟩

/-- C2: when the connection is unset (initialize has not completed
successfully), each of add, listAll, deleteById and clearAll fails with
the not-initialized error and returns the state unchanged — no mutation
is performed. -/
theorem notInitialized_guards (s : DBState) (h : s.dbConn = false)
    (p : JSObject) (now : String) (id : Nat) :
    addClippedPage p now s = (.error .notInitialized, s) ∧
    getAllClippedPages s = (.error .notInitialized, s) ∧
    deleteClippedPage id s = (.error .notInitialized, s) ∧
    clearAllClippedPages s = (.error .notInitialized, s) := by
  simp [addClippedPage, getAllClippedPages, deleteClippedPage,
    clearAllClippedPages, h]

/-- C2 witness: the guards at the fresh (never-initialized) state. -/
theorem notInitialized_guards_witness :
    DBState.fresh.dbConn = false ∧
    (addClippedPage [] "t" DBState.fresh = (.error .notInitialized, DBState.fresh) ∧
     getAllClippedPages DBState.fresh = (.error .notInitialized, DBState.fresh) ∧
     deleteClippedPage 1 DBState.fresh = (.error .notInitialized, DBState.fresh) ∧
     clearAllClippedPages DBState.fresh = (.error .notInitialized, DBState.fresh)) :=
  ⟨rfl, notInitialized_guards DBState.fresh rfl [] "t" 1⟩

/-- C3 counterexample: `add({wordCount: -5})` on an initialized empty
store succeeds and stores `wordCount` as the finite number -5, which is
not an "integer ≥ 0" — `Number.isFinite(-5)` is true, so the value is kept
rather than replaced by the default. -/
theorem add_wordCount_not_nonneg :
    (addClippedPage [("wordCount", .number (.finite (-5)))] "t"
      ⟨true, [], 1⟩).1 = .ok 1 ∧
    (addClippedPage [("wordCount", .number (.finite (-5)))] "t"
      ⟨true, [], 1⟩).2.records.map
        (fun r => getProp r.fields "wordCount") =
      [.number (.finite (-5))] ∧
    specNonnegInt (.number (.finite (-5))) = false := by
  refine ⟨rfl, ?_, by decide⟩
  decide

/-- Helper: the `title` property of a normalized record. -/
theorem getProp_normalize_title (p : JSObject) (now : String) :
    getProp (normalizeData p now) "title" =
      if (getProp p "title").truthy then getProp p "title"
      else .string "Untitled" := by
  simp [normalizeData, getProp]

/-- Helper: the `url` property of a normalized record. -/
theorem getProp_normalize_url (p : JSObject) (now : String) :
    getProp (normalizeData p now) "url" =
      if (getProp p "url").truthy then getProp p "url" else .string "" := by
  simp [normalizeData, getProp]

/-- Helper: the `content` property of a normalized record. -/
theorem getProp_normalize_content (p : JSObject) (now : String) :
    getProp (normalizeData p now) "content" =
      if (getProp p "content").truthy then getProp p "content"
      else .string "" := by
  simp [normalizeData, getProp]

/-- Helper: the `timestamp` property of a normalized record. -/
theorem getProp_normalize_timestamp (p : JSObject) (now : String) :
    getProp (normalizeData p now) "timestamp" =
      if (getProp p "timestamp").truthy then getProp p "timestamp"
      else .string now := by
  simp [normalizeData, getProp]

/-- Helper: the `favicon` property of a normalized record. -/
theorem getProp_normalize_favicon (p : JSObject) (now : String) :
    getProp (normalizeData p now) "favicon" =
      if (getProp p "favicon").truthy then getProp p "favicon"
      else .string "" := by
  simp [normalizeData, getProp]

/-- Helper: the `wordCount` property of a normalized record. -/
theorem getProp_normalize_wordCount (p : JSObject) (now : String) :
    getProp (normalizeData p now) "wordCount" =
      if (getProp p "wordCount").isFiniteNumber then getProp p "wordCount"
      else .number (.finite 0) := by
  simp [normalizeData, getProp]

/-- Helper: the `readingTime` property of a normalized record. -/
theorem getProp_normalize_readingTime (p : JSObject) (now : String) :
    getProp (normalizeData p now) "readingTime" =
      if (getProp p "readingTime").isFiniteNumber then getProp p "readingTime"
      else .number (.finite 1) := by
  simp [normalizeData, getProp]

/-- C3 amended: after every successful add the stored record has all
eight fields present (the seven data properties plus the injected `id`),
the add is never rejected for malformed input, and `wordCount` and
`readingTime` are always finite numbers — non-finite or non-numeric input
is silently replaced by the defaults 0 and 1, but any finite number
(negative or fractional included) is stored unchanged. -/
theorem add_fields_present_and_finite (s : DBState) (hc : s.dbConn = true)
    (p : JSObject) (now : String) :
    (addClippedPage p now s).1 = .ok s.nextId ∧
    (addClippedPage p now s).2.records =
      s.records ++ [⟨s.nextId, normalizeData p now⟩] ∧
    (normalizeData p now).map Prod.fst = recordFieldNames ∧
    (getProp (normalizeData p now) "wordCount").isFiniteNumber = true ∧
    (getProp (normalizeData p now) "readingTime").isFiniteNumber = true := by
  rw [addClippedPage_ok p now s hc]
  refine ⟨rfl, rfl, rfl, ?_, ?_⟩
  · rw [getProp_normalize_wordCount]
    split
    · assumption
    · rfl
  · rw [getProp_normalize_readingTime]
    split
    · assumption
    · rfl

/-- C3 amended witness: the theorem at a concrete initialized state with
a NaN wordCount input. -/
theorem add_fields_present_and_finite_witness :
    (DBState.mk true [] 1).dbConn = true ∧
    ((addClippedPage [("wordCount", .number .nan)] "t"
        (DBState.mk true [] 1)).1 = .ok 1 ∧
     (addClippedPage [("wordCount", .number .nan)] "t"
        (DBState.mk true [] 1)).2.records =
       [] ++ [⟨1, normalizeData [("wordCount", .number .nan)] "t"⟩] ∧
     (normalizeData [("wordCount", .number .nan)] "t").map Prod.fst =
       recordFieldNames ∧
     (getProp (normalizeData [("wordCount", .number .nan)] "t")
        "wordCount").isFiniteNumber = true ∧
     (getProp (normalizeData [("wordCount", .number .nan)] "t")
        "readingTime").isFiniteNumber = true) :=
  ⟨rfl, add_fields_present_and_finite _ rfl [("wordCount", .number .nan)] "t"⟩

/-- C4: on an initialized state, `deleteById(id)` succeeds, removes
exactly the record with primary key `id` and leaves every other record of
`listAll` unchanged (in order); calling it twice with the same id equals
calling it once; and deleting an id that no record carries is a
successful no-op. -/
theorem deleteById_spec (s : DBState) (hc : s.dbConn = true) (id : Nat) :
    (deleteClippedPage id s).1 = .ok () ∧
    (getAllClippedPages (deleteClippedPage id s).2).1 =
      .ok (s.records.filter (fun r => r.id ≠ id)) ∧
    deleteClippedPage id (deleteClippedPage id s).2 =
      deleteClippedPage id s ∧
    ((∀ r ∈ s.records, r.id ≠ id) → deleteClippedPage id s = (.ok (), s)) := by
  have hdel : deleteClippedPage id s =
      (.ok (), ⟨true, s.records.filter (fun r => r.id ≠ id), s.nextId⟩) := by
    simp [deleteClippedPage, hc]
  refine ⟨by rw [hdel], ?_, ?_, ?_⟩
  · rw [hdel]; simp [getAllClippedPages]
  · rw [hdel]
    simp [deleteClippedPage, List.filter_filter]
  · intro hnone
    rw [hdel]
    have : s.records.filter (fun r => r.id ≠ id) = s.records :=
      List.filter_eq_self.mpr (fun r hr => by simpa using hnone r hr)
    rw [this]
    cases s
    simp_all

/-- C4 witness: the theorem at a concrete two-record state, deleting id 1. -/
theorem deleteById_spec_witness :
    (DBState.mk true [⟨1, []⟩, ⟨2, []⟩] 3).dbConn = true ∧
    ((deleteClippedPage 1 (DBState.mk true [⟨1, []⟩, ⟨2, []⟩] 3)).1 = .ok () ∧
     (getAllClippedPages
        (deleteClippedPage 1 (DBState.mk true [⟨1, []⟩, ⟨2, []⟩] 3)).2).1 =
       .ok (List.filter (fun r => r.id ≠ 1) [⟨1, []⟩, ⟨2, []⟩]) ∧
     deleteClippedPage 1
        (deleteClippedPage 1 (DBState.mk true [⟨1, []⟩, ⟨2, []⟩] 3)).2 =
       deleteClippedPage 1 (DBState.mk true [⟨1, []⟩, ⟨2, []⟩] 3) ∧
     ((∀ r ∈ (DBState.mk true [⟨1, []⟩, ⟨2, []⟩] 3).records, r.id ≠ 1) →
       deleteClippedPage 1 (DBState.mk true [⟨1, []⟩, ⟨2, []⟩] 3) =
         (.ok (), DBState.mk true [⟨1, []⟩, ⟨2, []⟩] 3))) :=
  ⟨rfl, deleteById_spec (DBState.mk true [⟨1, []⟩, ⟨2, []⟩] 3) rfl 1⟩

/-- C5: on an initialized state, `clearAll()` succeeds and a subsequent
`listAll()` returns the empty sequence, whatever the prior contents. -/
theorem clearAll_then_listAll_empty (s : DBState) (hc : s.dbConn = true) :
    (clearAllClippedPages s).1 = .ok () ∧
    (getAllClippedPages (clearAllClippedPages s).2).1 = .ok ([] : List Record) := by
  simp [clearAllClippedPages, getAllClippedPages, hc]

/-- C5 witness: the theorem at a concrete three-record state. -/
theorem clearAll_then_listAll_empty_witness :
    (DBState.mk true [⟨1, []⟩, ⟨2, []⟩, ⟨3, []⟩] 4).dbConn = true ∧
    ((clearAllClippedPages (DBState.mk true [⟨1, []⟩, ⟨2, []⟩, ⟨3, []⟩] 4)).1 =
       .ok () ∧
     (getAllClippedPages (clearAllClippedPages
        (DBState.mk true [⟨1, []⟩, ⟨2, []⟩, ⟨3, []⟩] 4)).2).1 =
       .ok ([] : List Record)) :=
  ⟨rfl, clearAll_then_listAll_empty (DBState.mk true [⟨1, []⟩, ⟨2, []⟩, ⟨3, []⟩] 4) rfl⟩

/-- C6: when the engine reports an open error, `initDB` fails with that
error re-raised (wrapped as an engine initialization error), the
connection stays unset — the adapter returns to the uninitialized state —
and a retried `initDB` whose open succeeds establishes the connection. -/
theorem initDB_error_spec (s : DBState) (h : s.dbConn = false) (e : String) :
    initDB (.error e) s = (.error (.engine e), s) ∧
    ((initDB (.error e) s).2).dbConn = false ∧
    (initDB (.ok ()) ((initDB (.error e) s).2)).1 = .ok () ∧
    ((initDB (.ok ()) ((initDB (.error e) s).2)).2).dbConn = true := by
  exact ⟨rfl, h, rfl, rfl⟩

/-- C6 witness: the theorem at the fresh state with a concrete engine
error message. -/
theorem initDB_error_spec_witness :
    DBState.fresh.dbConn = false ∧
    (initDB (.error "QuotaExceededError") DBState.fresh =
       (.error (.engine "QuotaExceededError"), DBState.fresh) ∧
     ((initDB (.error "QuotaExceededError") DBState.fresh).2).dbConn = false ∧
     (initDB (.ok ())
        ((initDB (.error "QuotaExceededError") DBState.fresh).2)).1 = .ok () ∧
     ((initDB (.ok ())
        ((initDB (.error "QuotaExceededError") DBState.fresh).2)).2).dbConn =
       true) :=
  ⟨rfl, initDB_error_spec DBState.fresh rfl "QuotaExceededError"⟩

/-- C7: `add({})` on an initialized empty store stores title "Untitled",
url "", content "", favicon "", wordCount 0, readingTime 1 and the
generated timestamp; and `add({wordCount: NaN, readingTime: "x"})` stores
wordCount 0 and readingTime 1, the non-finite and non-numeric inputs
coerced to the defaults. -/
theorem add_default_scenarios (now : String) :
    (addClippedPage [] now ⟨true, [], 1⟩).2.records =
      [⟨1, [("title", .string "Untitled"), ("url", .string ""),
            ("content", .string ""), ("timestamp", .string now),
            ("favicon", .string ""), ("wordCount", .number (.finite 0)),
            ("readingTime", .number (.finite 1))]⟩] ∧
    getProp (normalizeData
        [("wordCount", .number .nan), ("readingTime", .string "x")] now)
      "wordCount" = .number (.finite 0) ∧
    getProp (normalizeData
        [("wordCount", .number .nan), ("readingTime", .string "x")] now)
      "readingTime" = .number (.finite 1) := by
  refine ⟨?_, ?_, ?_⟩
  · simp [addClippedPage, normalizeData, getProp, JSValue.truthy,
      JSValue.isFiniteNumber]
  · rw [getProp_normalize_wordCount]; decide
  · rw [getProp_normalize_readingTime]; decide

/-- C8: on first-ever open (stored version 0) the upgrade handler creates
the `clippedPages` store with autoIncrement primary key `id` and
non-unique indexes on `url` and `timestamp`; on an upgrade from version 1
to version 2 it leaves any existing schema exactly as it was. -/
theorem upgrade_schema_spec (s : StoreSchema) :
    onUpgradeNeeded 0 none =
      some ⟨"id", true, [("url", false), ("timestamp", false)]⟩ ∧
    onUpgradeNeeded 1 (some s) = some s := by
  exact ⟨rfl, rfl⟩

/-- C9: every falsy input value of a text field — not only an absent one —
is replaced by the field's default: a falsy title stores "Untitled", and a
falsy url, content, favicon or timestamp stores "", "", "" or the
generated time respectively. -/
theorem falsy_text_fields_default (v : JSValue) (h : v.truthy = false)
    (now : String) :
    getProp (normalizeData [("title", v)] now) "title" = .string "Untitled" ∧
    getProp (normalizeData [("url", v)] now) "url" = .string "" ∧
    getProp (normalizeData [("content", v)] now) "content" = .string "" ∧
    getProp (normalizeData [("timestamp", v)] now) "timestamp" = .string now ∧
    getProp (normalizeData [("favicon", v)] now) "favicon" = .string "" := by
  refine ⟨?_, ?_, ?_, ?_, ?_⟩ <;> simp [normalizeData, getProp, h]

/-- C9 witness: the theorem at the concrete falsy inputs "" and 0. -/
theorem falsy_text_fields_default_witness :
    (JSValue.string "").truthy = false ∧
    (JSValue.number (.finite 0)).truthy = false ∧
    getProp (normalizeData [("title", .string "")] "t") "title" =
      .string "Untitled" ∧
    getProp (normalizeData [("title", .number (.finite 0))] "t") "title" =
      .string "Untitled" ∧
    getProp (normalizeData [("favicon", .string "")] "t") "favicon" =
      .string "" :=
  ⟨by decide, by decide,
    (falsy_text_fields_default (.string "") (by decide) "t").1,
    (falsy_text_fields_default (.number (.finite 0)) (by decide) "t").1,
    (falsy_text_fields_default (.string "") (by decide) "t").2.2.2.2⟩

/-- C10: the stored record carries exactly the seven normalized property
names (plus the engine-assigned id); any extra property on the input
object is discarded: two inputs that agree on the seven named properties
produce identical adds, whatever other properties they carry. -/
theorem add_exactly_seven_fields (p q : JSObject) (now : String)
    (s : DBState) (hc : s.dbConn = true)
    (h : ∀ k ∈ recordFieldNames, getProp p k = getProp q k) :
    (normalizeData p now).map Prod.fst = recordFieldNames ∧
    addClippedPage p now s = addClippedPage q now s := by
  have h1 := h "title" (by simp [recordFieldNames])
  have h2 := h "url" (by simp [recordFieldNames])
  have h3 := h "content" (by simp [recordFieldNames])
  have h4 := h "timestamp" (by simp [recordFieldNames])
  have h5 := h "favicon" (by simp [recordFieldNames])
  have h6 := h "wordCount" (by simp [recordFieldNames])
  have h7 := h "readingTime" (by simp [recordFieldNames])
  have hn : normalizeData p now = normalizeData q now := by
    simp only [normalizeData, h1, h2, h3, h4, h5, h6, h7]
  exact ⟨rfl, by
    rw [addClippedPage_ok p now s hc, addClippedPage_ok q now s hc, hn]⟩

/-- C10 witness: an input with an extra `secret` property stores exactly
what its restriction to the seven named properties stores. -/
theorem add_exactly_seven_fields_witness :
    (DBState.mk true [] 1).dbConn = true ∧
    (∀ k ∈ recordFieldNames,
      getProp [("title", .string "A"), ("secret", .string "z")] k =
        getProp [("title", .string "A")] k) ∧
    ((normalizeData [("title", .string "A"), ("secret", .string "z")] "t").map
        Prod.fst = recordFieldNames ∧
      addClippedPage [("title", .string "A"), ("secret", .string "z")] "t"
          (DBState.mk true [] 1) =
        addClippedPage [("title", .string "A")] "t" (DBState.mk true [] 1)) :=
  ⟨rfl, by decide,
    add_exactly_seven_fields [("title", .string "A"), ("secret", .string "z")]
      [("title", .string "A")] "t" (DBState.mk true [] 1) rfl (by decide)⟩
